import Mathlib

/-!
Verification of the Latency Measurement Engine of the livekit-pipecat demo
client (`client/client.js`).

The engine state is the set of per-session fields the `App` class keeps for
mouth-to-ear latency measurement: the turn flags (`isProcessingResponse`,
`isWaitingForEcho`), the recorded speech-start timestamp, the bounded-or-not
measurement history, the armed 8000 ms timeouts, and the UI display fields the
engine writes.  Event-driven control flow (animation-frame ticks of the two
volume loops, media-element lifecycle events, timer callbacks, data-channel
messages) is embedded as a step function over an explicit event type; times
are integer milliseconds (`Date.now()`), audio levels are rationals, and
JavaScript `Math.round` is `⌊x + 1/2⌋`.
-/

namespace PipecatClient

/-- JavaScript `Math.round`: round half toward positive infinity. -/
def jsRound (q : ℚ) : Int := ⌊q + 1/2⌋

/-- JavaScript truthiness of a number-or-null field (`null` and `0` are falsy). -/
def optTruthy : Option Int → Bool
  | none => false
  | some v => v != 0

/-- JavaScript truthiness of a rational-valued optional field. -/
def optTruthyQ : Option ℚ → Bool
  | none => false
  | some q => q != 0

/-- The three display classes the client's color coding distinguishes
(green `#38a169`, yellow `#d69e2e`, red `#e53e3e`). -/
inductive LatencyClass where
  | excellent : LatencyClass
  | acceptable : LatencyClass
  | poor : LatencyClass
deriving DecidableEq, Repr

/-- Color classification applied to every displayed latency value, from the
`if (latency < 300) ... else if (latency < 600) ... else ...` chains in
`handleAgentAudioStart` and `handleAgentData`. -/
def classifyDisplayed (v : Int) : LatencyClass :=
  if v < 300 then .excellent
  else if v < 600 then .acceptable
  else .poor

/-- Hex color written into `latencyValue.style.color` for each class. -/
def colorOf : LatencyClass → String
  | .excellent => "#38a169"
  | .acceptable => "#d69e2e"
  | .poor => "#e53e3e"

/-- `Math.round(measurements.reduce((a,b) => a+b, 0) / measurements.length)`. -/
def statsAverage (ms : List Int) : Int :=
  jsRound ((ms.sum : ℚ) / (ms.length : ℚ))

/-- Insert a value into an ascending-sorted list (helper for the JS
`sort((a, b) => a - b)` on a copy of the measurements). -/
def insertSorted (v : Int) : List Int → List Int
  | [] => [v]
  | w :: ws => if v ≤ w then v :: w :: ws else w :: insertSorted v ws

/-- Ascending numeric sort, the result of `[...measurements].sort((a,b) => a-b)`. -/
def sortAsc (l : List Int) : List Int := l.foldr insertSorted []

/-- Median as computed by `showLatencyStatistics`: mean of the two middle
elements of the sorted copy when the length is even, middle element otherwise. -/
def statsMedian (ms : List Int) : Int :=
  let sorted := sortAsc ms
  if ms.length % 2 == 0 then
    jsRound ((((sorted.getD (ms.length / 2 - 1) 0) + (sorted.getD (ms.length / 2) 0) : Int) : ℚ) / 2)
  else
    sorted.getD (ms.length / 2) 0

/-- `measurements.filter(m => m < 600).length`. -/
def under600Count (ms : List Int) : Nat :=
  (ms.filter (fun m => decide (m < 600))).length

/-- `Math.round((under600 / measurements.length) * 100)`. -/
def under600Percent (ms : List Int) : Int :=
  jsRound (((under600Count ms : ℚ) / (ms.length : ℚ)) * 100)

/-- The engine-relevant mutable fields of the `App` object while connected:
turn flags, timestamps, measurement history, the multiset of armed (never
cancelled) 8000 ms timeouts, and the display fields the engine writes. -/
structure AppState where
  isConnected : Bool
  isProcessingResponse : Bool
  isWaitingForEcho : Bool
  speechStartTime : Option Int
  lastSpeechEndTime : Option Int
  conversationStartTime : Option Int
  volumeLevel : ℚ
  testCount : Nat
  latencyMeasurements : List Int
  pendingTimeouts : Nat
  latencyValueText : String
  latencyValueColor : String
  avgLatencyText : String
  avgLatencyColor : String
  measurementCountText : String
  micStatus : String
deriving DecidableEq, Repr

/-- State right after a successful `joinRoom`: connected, no turn in
progress, empty history, placeholder displays. -/
def initState : AppState where
  isConnected := true
  isProcessingResponse := false
  isWaitingForEcho := false
  speechStartTime := none
  lastSpeechEndTime := none
  conversationStartTime := none
  volumeLevel := 0
  testCount := 0
  latencyMeasurements := []
  pendingTimeouts := 0
  latencyValueText := "--"
  latencyValueColor := ""
  avgLatencyText := "--"
  avgLatencyColor := ""
  measurementCountText := "0"
  micStatus := "Ready to speak..."

/-- `handleAgentAudioStart` at wall-clock time `now` (`Date.now()` at entry):
if the window is open (`isWaitingForEcho` and a truthy `speechStartTime`),
append `now - speechStartTime` to the history (no eviction on this path),
update both latency displays, and close the window; otherwise do nothing. -/
def handleAgentAudioStart (s : AppState) (now : Int) : AppState :=
  if s.isWaitingForEcho && optTruthy s.speechStartTime then
    let t0 := s.speechStartTime.getD 0
    let latency := now - t0
    let ms := s.latencyMeasurements ++ [latency]
    let avgLatency := statsAverage ms
    { s with
      latencyMeasurements := ms
      testCount := s.testCount + 1
      latencyValueText := toString latency
      latencyValueColor := colorOf (classifyDisplayed latency)
      avgLatencyText := toString avgLatency
      avgLatencyColor := colorOf (classifyDisplayed avgLatency)
      isProcessingResponse := false
      isWaitingForEcho := false
      micStatus := "Ready to speak..." }
  else s

/-- The asynchronous events that drive the local measurement engine:
a tick of the microphone volume loop (`updateVolume`, carrying the computed
`volumeLevel`), a media-element lifecycle event (`play` / `canplay`), a tick
of the remote-audio energy loop (`checkAudioActivity`, carrying the raw
frequency bins), and the firing of one armed 8000 ms timeout callback. -/
inductive LEvent where
  | volTick (level : ℚ) (now : Int) : LEvent
  | mediaEvent (now : Int) : LEvent
  | energyTick (bins : List Nat) (now : Int) : LEvent
  | timeoutFire : LEvent
deriving DecidableEq, Repr

/-- An event is a speech-start signal when it is a volume tick whose level
exceeds the speaking threshold 5. -/
def isSpeechStart : LEvent → Bool
  | .volTick level _ => decide (level > 5)
  | _ => false

/-- One step of the event loop, translated from `updateVolume`,
the `play`/`canplay` listeners, `checkAudioActivity`, and the `setTimeout`
callback armed in `updateVolume`'s speech-end branch. -/
def stepLocal (s : AppState) (e : LEvent) : AppState :=
  match e with
  | .volTick level now =>
    if !s.isConnected then s
    else
      let s1 := { s with volumeLevel := level }
      let isSpeaking : Bool := decide (level > 5)
      if isSpeaking && !s1.isProcessingResponse then
        { s1 with
          speechStartTime := some now
          isProcessingResponse := true
          isWaitingForEcho := true
          micStatus := "Speaking... (measuring latency)" }
      else if !isSpeaking && s1.isProcessingResponse && optTruthy s1.speechStartTime then
        { s1 with
          lastSpeechEndTime := some now
          micStatus := "Waiting for agent response..."
          pendingTimeouts := s1.pendingTimeouts + 1 }
      else s1
  | .mediaEvent now => handleAgentAudioStart s now
  | .energyTick bins now =>
    if !s.isWaitingForEcho then s
    else
      let average : ℚ := (bins.sum : ℚ) / (bins.length : ℚ)
      if average > 5 ∧ s.isWaitingForEcho = true ∧ optTruthy s.speechStartTime = true then
        handleAgentAudioStart s now
      else s
  | .timeoutFire =>
    if s.pendingTimeouts = 0 then s
    else
      let s1 := { s with pendingTimeouts := s.pendingTimeouts - 1 }
      if s1.isProcessingResponse then
        { s1 with
          isProcessingResponse := false
          isWaitingForEcho := false
          micStatus := "No response detected" }
      else s1

/-- Run the event loop over a list of events. -/
def runLocal (s : AppState) (es : List LEvent) : AppState :=
  es.foldl stepLocal s

/-- `push` followed by `if (length > 20) shift()`: the capped append used by
the two server-report paths of `handleAgentData`. -/
def capPush (h : List Int) (v : Int) : List Int :=
  let h2 := h ++ [v]
  if h2.length > 20 then h2.drop 1 else h2

/-- Parsed inbound data-channel messages, by their `type` field; optional
fields are absent (`none`) or carry a number/string. -/
inductive AgentMsg where
  | processingStart (timestamp : Option Int) : AgentMsg
  | processingComplete (latencyMs : Option ℚ) (averageLatencyMs : Option ℚ)
      (measurementCount : Option Int) (ttsText : Option String) : AgentMsg
  | latencyUpdate (latencyMs : Option ℚ) : AgentMsg
  | unknown (msgType : String) : AgentMsg
deriving DecidableEq, Repr

/-- `handleAgentData`, translated case by case from the `switch` on
`data.type`. -/
def handleAgentData (s : AppState) (m : AgentMsg) : AppState :=
  match m with
  | .processingStart ts =>
    { s with
      isProcessingResponse := true
      conversationStartTime := ts
      latencyValueText := "Processing..."
      latencyValueColor := "#d69e2e" }
  | .processingComplete lms _avgms mcount _tts =>
    let s1 := { s with isProcessingResponse := false }
    if optTruthyQ lms then
      let latency := jsRound (lms.getD 0)
      let ms := capPush s1.latencyMeasurements latency
      { s1 with
        latencyMeasurements := ms
        latencyValueText := toString latency
        latencyValueColor := colorOf (classifyDisplayed latency)
        measurementCountText :=
          match mcount with
          | some c => if c != 0 then toString c else toString ms.length
          | none => toString ms.length }
    else s1
  | .latencyUpdate lms =>
    if optTruthyQ lms ∧ lms.getD 0 > 0 then
      let latency := jsRound (lms.getD 0)
      let ms := capPush s.latencyMeasurements latency
      let avgLatency := statsAverage ms
      { s with
        latencyMeasurements := ms
        latencyValueText := toString latency
        latencyValueColor := colorOf (classifyDisplayed latency)
        avgLatencyText := toString avgLatency
        avgLatencyColor := colorOf (classifyDisplayed avgLatency) }
    else s
  | .unknown _ => s

/-- The `DataReceived` listener: a payload that fails to parse as JSON is
caught and logged (`none`), leaving the state untouched; otherwise the parsed
message is dispatched to `handleAgentData`. -/
def handleDataReceived (s : AppState) (p : Option AgentMsg) : AppState :=
  match p with
  | none => s
  | some m => handleAgentData s m

/-- The gate both echo triggers check before firing:
`isWaitingForEcho && speechStartTime`. -/
def canFireEcho (s : AppState) : Bool :=
  s.isWaitingForEcho && optTruthy s.speechStartTime

end PipecatClient

namespace PipecatClient

/-- A turn window freshly opened by a speech onset at t = 5. -/
def openedState : AppState := runLocal initState [LEvent.volTick 10 5]

/-- A full turn (speech start, speech end arming the 8000 ms timeout, echo)
whose window has closed again; the armed timeout is still pending. -/
def closedTurnState : AppState :=
  runLocal initState [LEvent.volTick 10 100, LEvent.volTick 0 1300, LEvent.mediaEvent 2050]

/-- Turn 1 (speech 100..1300, timeout armed, echo at 2050), then a new turn
opened at 3000, then the stale timeout armed during turn 1 fires. -/
def staleTimeoutTrace : List LEvent :=
  [LEvent.volTick 10 100, LEvent.volTick 0 1300, LEvent.mediaEvent 2050,
   LEvent.volTick 10 3000, LEvent.timeoutFire]

/-- Twenty-five turns, each a speech onset followed by an echo, so that the
local path records twenty-five measurements. -/
def localTurnsTrace : List LEvent :=
  (List.range 25).flatMap
    (fun i => [LEvent.volTick 10 (1000 * (i : Int) + 1), LEvent.mediaEvent (1000 * (i : Int) + 500)])

/-- Twenty-five positive server-reported latency values. -/
def serverValues : List ℚ :=
  [1, 2, 3, 4, 5, 6, 7, 8, 9, 10, 11, 12, 13, 14, 15, 16, 17, 18, 19, 20, 21, 22, 23, 24, 25]

/-- Echo triggers are no-ops once the window is closed. -/
theorem echoClosed_noop (s : AppState) (t : Int) (h : s.isWaitingForEcho = false) :
    handleAgentAudioStart s t = s := by
  simp [handleAgentAudioStart, h]

/-- While a turn is in progress, a volume tick never rewrites the recorded
speech-start timestamp. -/
theorem volTick_keeps_speechStart (s : AppState) (lvl : ℚ) (now : Int)
    (hp : s.isProcessingResponse = true) :
    (stepLocal s (.volTick lvl now)).speechStartTime = s.speechStartTime := by
  simp only [stepLocal]
  split_ifs <;> simp_all

/-- One step preserves the coherence of the two window flags:
`isWaitingForEcho` is only ever set while `isProcessingResponse` is set. -/
theorem stepLocal_window_consistent (s : AppState) (e : LEvent)
    (h : s.isWaitingForEcho = true → s.isProcessingResponse = true) :
    (stepLocal s e).isWaitingForEcho = true → (stepLocal s e).isProcessingResponse = true := by
  cases e <;> simp only [stepLocal, handleAgentAudioStart] <;> split_ifs <;> simp_all

/-- The window-flag coherence is an invariant of every run of the local
event loop. -/
theorem runLocal_window_consistent (es : List LEvent) :
    ∀ s : AppState, (s.isWaitingForEcho = true → s.isProcessingResponse = true) →
      ((runLocal s es).isWaitingForEcho = true → (runLocal s es).isProcessingResponse = true) := by
  induction es with
  | nil => intro s h; simpa [runLocal] using h
  | cons e es ih =>
    intro s h
    have heq : runLocal s (e :: es) = runLocal (stepLocal s e) es := rfl
    rw [heq]
    exact ih (stepLocal s e) (stepLocal_window_consistent s e h)

/-- A step that is not a speech-start signal cannot increase the measure
`history length + (1 if awaiting echo)`: recording an echo consumes the
awaiting flag. -/
theorem stepLocal_measure_le (s : AppState) (e : LEvent) (h : isSpeechStart e = false) :
    (stepLocal s e).latencyMeasurements.length +
        (if (stepLocal s e).isWaitingForEcho then 1 else 0)
      ≤ s.latencyMeasurements.length + (if s.isWaitingForEcho then 1 else 0) := by
  cases e with
  | volTick level now =>
    simp only [isSpeechStart] at h
    cases hc : s.isConnected <;>
      cases hp : s.isProcessingResponse <;>
        cases hw : s.isWaitingForEcho <;>
          cases ht : optTruthy s.speechStartTime <;>
            simp [stepLocal, hc, hp, hw, ht, h, List.length_append]
  | mediaEvent now =>
    cases hw : s.isWaitingForEcho <;>
      cases ht : optTruthy s.speechStartTime <;>
        simp [stepLocal, handleAgentAudioStart, hw, ht, List.length_append]
  | energyTick bins now =>
    cases hw : s.isWaitingForEcho <;>
      cases ht : optTruthy s.speechStartTime <;>
        simp [stepLocal, handleAgentAudioStart, hw, ht, List.length_append] <;>
          split_ifs <;> simp_all [List.length_append]
  | timeoutFire =>
    cases hz : s.pendingTimeouts <;>
      cases hp : s.isProcessingResponse <;>
        cases hw : s.isWaitingForEcho <;>
          simp [stepLocal, hz, hp, hw]

/-- Folded version of `stepLocal_measure_le` over a run without speech-start
signals. -/
theorem runLocal_measure_bound (es : List LEvent) :
    ∀ s : AppState, (∀ e ∈ es, isSpeechStart e = false) →
      (runLocal s es).latencyMeasurements.length +
          (if (runLocal s es).isWaitingForEcho then 1 else 0)
        ≤ s.latencyMeasurements.length + (if s.isWaitingForEcho then 1 else 0) := by
  induction es with
  | nil => intro s _; simp [runLocal]
  | cons e es ih =>
    intro s h
    have hstep := stepLocal_measure_le s e (h e (by simp))
    have hrest := ih (stepLocal s e) (fun x hx => h x (by simp [hx]))
    have heq : runLocal s (e :: es) = runLocal (stepLocal s e) es := rfl
    rw [heq]
    exact le_trans hrest hstep

/-- The capped push keeps the history at no more than 20 entries. -/
theorem capPush_length_le (h : List Int) (v : Int) (hle : h.length ≤ 20) :
    (capPush h v).length ≤ 20 := by
  simp only [capPush]
  split_ifs with hc <;> simp_all [List.length_append]

/-- The capped push is an append followed by dropping the overflow prefix. -/
theorem capPush_eq_drop (l : List Int) (v : Int) (hle : l.length ≤ 20) :
    capPush l v = (l ++ [v]).drop (l.length + 1 - 20) := by
  simp only [capPush]
  split_ifs with hc
  · have h20 : l.length = 20 := by simp [List.length_append] at hc; omega
    rw [h20]
  · have h0 : l.length + 1 - 20 = 0 := by simp [List.length_append] at hc; omega
    rw [h0, List.drop_zero]

/-- Folding the capped push keeps exactly the most recent 20 entries. -/
theorem foldl_capPush (l : List Int) :
    ∀ h : List Int, h.length ≤ 20 →
      List.foldl capPush h l = (h ++ l).drop (h.length + l.length - 20) := by
  induction l with
  | nil =>
    intro h hle
    simp only [List.foldl_nil, List.append_nil, List.length_nil]
    have h0 : h.length + 0 - 20 = 0 := by omega
    rw [h0, List.drop_zero]
  | cons v l ih =>
    intro h hle
    rw [List.foldl_cons, ih (capPush h v) (capPush_length_le h v hle), capPush_eq_drop h v hle]
    have hk : h.length + 1 - 20 ≤ (h ++ [v]).length := by simp [List.length_append]; omega
    rw [← List.drop_append_of_le_length hk, List.drop_drop]
    have hassoc : (h ++ [v]) ++ l = h ++ (v :: l) := by simp
    rw [hassoc]
    congr 1
    simp [List.length_drop, List.length_append]
    omega

/-- A positive `latency_update` report appends through the capped push. -/
theorem latencyUpdate_records (s : AppState) (q : ℚ) (hq : 0 < q) :
    (handleAgentData s (.latencyUpdate (some q))).latencyMeasurements
      = capPush s.latencyMeasurements (jsRound q) := by
  have h1 : optTruthyQ (some q) = true := by
    simp [optTruthyQ]
    exact hq.ne'
  simp [handleAgentData, h1, hq]

/-- Measurement history of a run of positive `latency_update` reports is the
capped-push fold of the rounded values. -/
theorem foldl_latencyUpdate_measurements (qs : List ℚ) :
    ∀ s : AppState, (∀ q ∈ qs, 0 < q) →
      (qs.foldl (fun st q => handleAgentData st (.latencyUpdate (some q))) s).latencyMeasurements
        = List.foldl capPush s.latencyMeasurements (qs.map jsRound) := by
  induction qs with
  | nil => intro s _; simp
  | cons q qs ih =>
    intro s h
    rw [List.foldl_cons, List.map_cons, List.foldl_cons,
      ih _ (fun x hx => h x (by simp [hx])), latencyUpdate_records s q (h q (by simp))]

end PipecatClient

namespace PipecatClient

/-- C1 (counterexample): the 8000 ms timeout armed during turn 1 (speech at
100, speech end at 1300) is still pending after that turn closes by echo at
2050; after a new turn opens at 3000, the stale timeout fires and resets the
newer turn's processing/awaiting-echo state — so the timeout armed during
the earlier turn is not invalidated when that turn closes and does fire
against the newer turn, refuting the claim on this concrete event sequence. -/
theorem C1_counterexample :
    (runLocal initState (staleTimeoutTrace.take 4)).isWaitingForEcho = true ∧
    (runLocal initState (staleTimeoutTrace.take 4)).isProcessingResponse = true ∧
    (runLocal initState (staleTimeoutTrace.take 4)).speechStartTime = some 3000 ∧
    (runLocal initState (staleTimeoutTrace.take 4)).pendingTimeouts = 1 ∧
    (runLocal initState staleTimeoutTrace).isWaitingForEcho = false ∧
    (runLocal initState staleTimeoutTrace).isProcessingResponse = false ∧
    (runLocal initState staleTimeoutTrace).speechStartTime = some 3000 ∧
    (runLocal initState staleTimeoutTrace).latencyMeasurements = [1950] := by
  decide

/-- C1 (amended): closing a turn by echo detection leaves every armed
timeout pending (nothing is invalidated); a pending timeout that fires while
no turn is in progress only consumes the timer and leaves all other state
unchanged, while one that fires while a (possibly newer) turn is in progress
resets that turn's processing/awaiting-echo flags. -/
theorem C1_amended_timeout_not_invalidated (s : AppState) (t : Int) :
    (handleAgentAudioStart s t).pendingTimeouts = s.pendingTimeouts ∧
    (s.isProcessingResponse = false →
      stepLocal s .timeoutFire = { s with pendingTimeouts := s.pendingTimeouts - 1 }) ∧
    (s.isProcessingResponse = true → s.pendingTimeouts ≠ 0 →
      (stepLocal s .timeoutFire).isProcessingResponse = false ∧
      (stepLocal s .timeoutFire).isWaitingForEcho = false) := by
  refine ⟨?_, ?_, ?_⟩
  · simp only [handleAgentAudioStart]
    split_ifs <;> rfl
  · intro hp
    cases s
    simp only at hp
    subst hp
    simp only [stepLocal]
    split_ifs <;> simp_all
  · intro hp hz
    simp only [stepLocal]
    rw [if_neg hz]
    simp [hp]

/-- C1 (witness for the amended theorem): in the concrete state reached
after a full turn closed by echo, the stale timeout firing only consumes the
pending timer. -/
theorem C1_amended_witness :
    closedTurnState.isProcessingResponse = false ∧
    stepLocal closedTurnState .timeoutFire
      = { closedTurnState with pendingTimeouts := closedTurnState.pendingTimeouts - 1 } :=
  ⟨by decide, (C1_amended_timeout_not_invalidated closedTurnState 0).2.1 (by decide)⟩

set_option maxRecDepth 10000 in
/-- C2 (counterexample): twenty-five local echo-detected recordings leave
twenty-five entries in the history — the local recording path
(`handleAgentAudioStart`) never evicts, so the 20-cap fails for sequences of
local measurements. -/
theorem C2_counterexample :
    (runLocal initState localTurnsTrace).latencyMeasurements.length = 25 ∧
    (25 : Nat) ≠ 20 := by
  refine ⟨by decide, by decide⟩

/-- C2 (amended): the 20-cap with oldest-first eviction holds for the
server-report paths: after any sequence of 25 positive `latency_update`
reports the store holds exactly the 20 most recent rounded values (length
20), and a `processing_complete` report with nonzero `latency_ms` records
through the same capped push; local echo recordings append without
eviction (see the counterexample). -/
theorem C2_amended_server_cap (qs : List ℚ) (hpos : ∀ q ∈ qs, 0 < q)
    (hlen : qs.length = 25) :
    (qs.foldl (fun st q => handleAgentData st (.latencyUpdate (some q))) initState).latencyMeasurements
        = (qs.map jsRound).drop 5 ∧
    (qs.foldl (fun st q => handleAgentData st (.latencyUpdate (some q))) initState).latencyMeasurements.length
        = 20 ∧
    ∀ (s : AppState) (q : ℚ), q ≠ 0 →
      (handleAgentData s (.processingComplete (some q) none none none)).latencyMeasurements
        = capPush s.latencyMeasurements (jsRound q) := by
  have h1 := foldl_latencyUpdate_measurements qs initState hpos
  have h2 : initState.latencyMeasurements = [] := rfl
  rw [h2] at h1
  have h3 := foldl_capPush (qs.map jsRound) [] (by simp)
  simp only [List.nil_append, List.length_nil, Nat.zero_add, List.length_map, hlen] at h3
  refine ⟨?_, ?_, ?_⟩
  · rw [h1, h3]
  · rw [h1, h3]
    simp [List.length_drop, List.length_map, hlen]
  · intro s q hq
    simp [handleAgentData, optTruthyQ, hq]

/-- C2 (witness for the amended theorem): twenty-five concrete positive
reports leave exactly the 20 most recent values. -/
theorem C2_amended_witness :
    serverValues.length = 25 ∧
    (serverValues.foldl (fun st q => handleAgentData st (.latencyUpdate (some q))) initState).latencyMeasurements
      = (serverValues.map jsRound).drop 5 :=
  ⟨by decide, (C2_amended_server_cap serverValues (by decide) (by decide)).1⟩

/-- C3: along any run of speech/echo/timeout events from the initial state,
at most one turn window is open at any instant — the two window flags are
coherent (`isWaitingForEcho` implies `isProcessingResponse`, a single
window) — and a speech-start tick arriving while the window is open leaves
the recorded speech-start timestamp unchanged. -/
theorem C3_single_open_window (es : List LEvent) :
    ((runLocal initState es).isWaitingForEcho = true →
      (runLocal initState es).isProcessingResponse = true) ∧
    ((runLocal initState es).isProcessingResponse = true →
      ∀ (lvl : ℚ) (now : Int),
        (stepLocal (runLocal initState es) (.volTick lvl now)).speechStartTime
          = (runLocal initState es).speechStartTime) := by
  constructor
  · exact runLocal_window_consistent es initState (by decide)
  · intro hp lvl now
    exact volTick_keeps_speechStart _ lvl now hp

/-- C3 (witness): with the window opened by a speech onset at 5, another
speaking-level tick leaves the speech-start timestamp unchanged. -/
theorem C3_witness :
    (runLocal initState [LEvent.volTick 10 5]).isProcessingResponse = true ∧
    (stepLocal (runLocal initState [LEvent.volTick 10 5]) (.volTick 20 50)).speechStartTime
      = (runLocal initState [LEvent.volTick 10 5]).speechStartTime :=
  ⟨by decide, (C3_single_open_window [LEvent.volTick 10 5]).2 (by decide) 20 50⟩

/-- C4: the echo detector fires only while the turn is awaiting an echo
(with the window closed every trigger is a no-op), and along any stretch of
events containing no speech-start signal at most one local measurement is
appended: the first successful trigger closes the window and subsequent
triggers for the same turn are ignored. -/
theorem C4_at_most_one_local_measurement (s : AppState) (es : List LEvent)
    (hns : ∀ e ∈ es, isSpeechStart e = false) :
    (runLocal s es).latencyMeasurements.length ≤ s.latencyMeasurements.length + 1 ∧
    (s.isWaitingForEcho = false → ∀ t, handleAgentAudioStart s t = s) := by
  constructor
  · have h := runLocal_measure_bound es s hns
    have h4 : s.latencyMeasurements.length + (if s.isWaitingForEcho then 1 else 0)
        ≤ s.latencyMeasurements.length + 1 := by split_ifs <;> omega
    exact le_trans (le_trans (Nat.le_add_right _ _) h) h4
  · intro hw t
    exact echoClosed_noop s t hw

/-- C4 (witness): from a freshly opened window, two media-lifecycle triggers
and a quiet volume tick append at most one measurement. -/
theorem C4_witness :
    (runLocal openedState
        [LEvent.mediaEvent 2050, LEvent.mediaEvent 2100, LEvent.volTick 2 2200]).latencyMeasurements.length
      ≤ openedState.latencyMeasurements.length + 1 :=
  (C4_at_most_one_local_measurement openedState
    [LEvent.mediaEvent 2050, LEvent.mediaEvent 2100, LEvent.volTick 2 2200] (by decide)).1

/-- C5: for a turn whose speech start is recorded at `t0` and whose echo
trigger fires at `t1 ≥ t0`, the local latency value appended to the history
is exactly `t1 - t0`. -/
theorem C5_monotonic_measurement (s : AppState) (t0 t1 : Int)
    (hw : s.isWaitingForEcho = true) (hs : s.speechStartTime = some t0)
    (h0 : t0 ≠ 0) (hle : t0 ≤ t1) :
    (handleAgentAudioStart s t1).latencyMeasurements
      = s.latencyMeasurements ++ [t1 - t0] := by
  simp [handleAgentAudioStart, hw, hs, optTruthy, h0]

/-- C5 (witness): a window opened at 5 whose echo fires at 1955 records
exactly 1950. -/
theorem C5_witness :
    openedState.isWaitingForEcho = true ∧
    openedState.speechStartTime = some 5 ∧
    ((5 : Int) ≤ 1955) ∧
    (handleAgentAudioStart openedState 1955).latencyMeasurements
      = openedState.latencyMeasurements ++ [1955 - 5] :=
  ⟨by decide, by decide, by decide,
    C5_monotonic_measurement openedState 5 1955 (by decide) (by decide) (by decide) (by decide)⟩

/-- C6: for the measurement values [100, 300, 500, 700], the statistics
computed by `showLatencyStatistics` are average 400, median 400, 3 values
under the 600 ms threshold, and a success ratio of 3/4 (75 percent). -/
theorem C6_statistics_correct :
    statsAverage [100, 300, 500, 700] = 400 ∧
    statsMedian [100, 300, 500, 700] = 400 ∧
    under600Count [100, 300, 500, 700] = 3 ∧
    under600Percent [100, 300, 500, 700] = 75 ∧
    (under600Count [100, 300, 500, 700] : ℚ) / (([100, 300, 500, 700] : List Int).length : ℚ)
      = 3 / 4 := by
  refine ⟨?_, ?_, ?_, ?_, ?_⟩
  · norm_num [statsAverage, jsRound]
  · norm_num [statsMedian, jsRound, sortAsc, insertSorted]
  · decide
  · norm_num [under600Percent, under600Count, jsRound]
  · have h3 : under600Count [100, 300, 500, 700] = 3 := by decide
    rw [h3]
    norm_num

/-- C7: an inbound message of unknown type, and a payload that fails to
parse, are discarded with no change to any engine state. -/
theorem C7_protocol_robustness (s : AppState) (ty : String) :
    handleAgentData s (.unknown ty) = s ∧ handleDataReceived s none = s :=
  ⟨rfl, rfl⟩

/-- C8 (counterexample): a displayed value of exactly 600 ms is classified
poor (red), not acceptable — the code's comparison is the strict
`latency < 600`, refuting the claim that 600 ms is acceptable. -/
theorem C8_counterexample :
    classifyDisplayed 600 = LatencyClass.poor ∧
    classifyDisplayed 600 ≠ LatencyClass.acceptable := by
  decide

/-- C8 (amended): a displayed latency is classified excellent iff v < 300,
acceptable iff 300 ≤ v < 600, and poor iff v ≥ 600; in particular exactly
600 ms is poor. -/
theorem C8_amended_thresholds (v : Int) :
    (classifyDisplayed v = LatencyClass.excellent ↔ v < 300) ∧
    (classifyDisplayed v = LatencyClass.acceptable ↔ 300 ≤ v ∧ v < 600) ∧
    (classifyDisplayed v = LatencyClass.poor ↔ 600 ≤ v) := by
  unfold classifyDisplayed
  split_ifs with h1 h2 <;> simp_all <;> omega

/-- C8 (witness for the amended theorem): 600 is classified poor. -/
theorem C8_amended_witness :
    (600 : Int) ≤ 600 ∧ classifyDisplayed 600 = LatencyClass.poor :=
  ⟨by decide, ((C8_amended_thresholds 600).2.2).mpr (by decide)⟩

/-- C9 (counterexample): handling `processing_start` does change whether a
subsequent local speech onset can open a new turn window — from the initial
state a speaking tick opens a window (records a speech start), but after
`processing_start` the same tick records nothing, refuting the claimed
independence. -/
theorem C9_counterexample :
    (stepLocal (handleAgentData initState (.processingStart (some 1000))) (.volTick 50 2000)).speechStartTime
      = none ∧
    (stepLocal initState (.volTick 50 2000)).speechStartTime = some 2000 := by
  refine ⟨by decide, by decide⟩

/-- C9 (amended): `processing_start` only sets the processing flag, the
conversation start time and the processing display: it leaves the echo
trigger's gating state (awaiting-echo flag, speech-start timestamp, the
`canFireEcho` gate) and the measurement history unchanged; but because it
sets `isProcessingResponse`, a local speech onset while that flag is set
cannot open a new turn window (the speech-start timestamp stays unchanged). -/
theorem C9_amended_processing_start_effects (s : AppState) (ts : Option Int) :
    (handleAgentData s (.processingStart ts)).isWaitingForEcho = s.isWaitingForEcho ∧
    (handleAgentData s (.processingStart ts)).speechStartTime = s.speechStartTime ∧
    (handleAgentData s (.processingStart ts)).latencyMeasurements = s.latencyMeasurements ∧
    (handleAgentData s (.processingStart ts)).pendingTimeouts = s.pendingTimeouts ∧
    canFireEcho (handleAgentData s (.processingStart ts)) = canFireEcho s ∧
    (handleAgentData s (.processingStart ts)).isProcessingResponse = true ∧
    ∀ (lvl : ℚ) (now : Int),
      (stepLocal (handleAgentData s (.processingStart ts)) (.volTick lvl now)).speechStartTime
        = s.speechStartTime := by
  refine ⟨rfl, rfl, rfl, rfl, rfl, rfl, ?_⟩
  intro lvl now
  exact volTick_keeps_speechStart _ lvl now rfl

/-- C10: a `processing_complete` whose `latency_ms` is missing or 0 only
clears the processing flag, and a `latency_update` whose `latency_ms` is
missing, 0, or negative changes nothing at all — in all these cases no
measurement is recorded and the latency displays are untouched. -/
theorem C10_degenerate_latency_fields (s : AppState) (av : Option ℚ)
    (mc : Option Int) (tt : Option String) (q : ℚ) :
    handleAgentData s (.processingComplete none av mc tt)
        = { s with isProcessingResponse := false } ∧
    handleAgentData s (.processingComplete (some 0) av mc tt)
        = { s with isProcessingResponse := false } ∧
    handleAgentData s (.latencyUpdate none) = s ∧
    handleAgentData s (.latencyUpdate (some 0)) = s ∧
    (q < 0 → handleAgentData s (.latencyUpdate (some q)) = s) := by
  refine ⟨rfl, ?_, ?_, ?_, ?_⟩
  · simp [handleAgentData, optTruthyQ]
  · simp [handleAgentData, optTruthyQ]
  · simp [handleAgentData, optTruthyQ]
  · intro hq
    have h1 : ¬(0 < q) := not_lt.mpr hq.le
    simp [handleAgentData, optTruthyQ, h1]

/-- C10 (witness): a negative `latency_update` report leaves the initial
state untouched. -/
theorem C10_witness :
    ((-5 : ℚ) < 0) ∧ handleAgentData initState (.latencyUpdate (some (-5))) = initState :=
  ⟨by norm_num,
    (C10_degenerate_latency_fields initState none none none (-5)).2.2.2.2 (by norm_num)⟩

end PipecatClient
